import Mathlib

/-!
Verification of the IDSphere SSO federation core against its specification.

The Go sources are shallowly embedded: the dao ticket-store operations
(`dao.SSO.GetAuthorizeCode`, `GetAuthorizeToken`, `GetAuthorizeTicket`) become
pure state-passing functions over lists of ticket rows, the SSO service
functions (`sso.GetOAuthAuthorize`, `GetCASAuthorize`, `GetNginxAuthorize`,
`GetSPAuthorize`, `ServiceValidate`, `GetToken`, `Login`) become functions over
an environment record (site registry, subject store, clock, crypto
collaborators) and the ticket store, and the Gin handler `user.Logout` becomes
a function from the Authorization header to an outcome that records the
panic on a missing split part.  Collaborators that live outside the repository
(the HMAC, RSA and template libraries) are abstract fields of the environment.
-/

namespace IDSphere

/-! ## Go string primitives

Executable models of the `strings` package functions the embedded code uses:
`strings.HasPrefix`, `strings.HasSuffix`, `strings.Contains`, `strings.Split`
with a one-character separator, and `strings.SplitN(s, sep, 2)`. -/

/-- Does the second list start with the first?  Model of the prefix test
underlying `strings.HasPrefix`. -/
def startsWithList : List Char → List Char → Bool
  | [], _ => true
  | _ :: _, [] => false
  | a :: as, b :: bs => a == b && startsWithList as bs

/-- Go `strings.HasPrefix s pre`. -/
def goStartsWith (s pre : String) : Bool :=
  startsWithList pre.data s.data

/-- Go `strings.HasSuffix s suf`. -/
def goEndsWith (s suf : String) : Bool :=
  startsWithList suf.data.reverse s.data.reverse

/-- Substring search on character lists. -/
def containsList (needle : List Char) : List Char → Bool
  | [] => needle.isEmpty
  | c :: cs => startsWithList needle (c :: cs) || containsList needle cs

/-- Go `strings.Contains s sub`. -/
def goContains (s sub : String) : Bool :=
  containsList sub.data s.data

/-- Split a character list at every occurrence of `sep`; Go
`strings.Split` semantics (the empty input yields one empty field). -/
def splitOnChar (sep : Char) : List Char → List (List Char)
  | [] => [[]]
  | c :: cs =>
    match splitOnChar sep cs with
    | [] => [[]]
    | g :: gs => if c = sep then [] :: g :: gs else (c :: g) :: gs

/-- Go `strings.Split s (String.singleton sep)`. -/
def goSplit (s : String) (sep : Char) : List String :=
  (splitOnChar sep s.data).map (fun l => ⟨l⟩)

/-- First occurrence split: `some (before, after)` when `sep` occurs. -/
def splitAtFirst (sep : Char) : List Char → Option (List Char × List Char)
  | [] => none
  | c :: cs =>
    if c = sep then some ([], cs)
    else (splitAtFirst sep cs).map (fun p => (c :: p.1, p.2))

/-- Go `strings.SplitN s (String.singleton sep) 2`. -/
def goSplitN2 (s : String) (sep : Char) : List String :=
  match splitAtFirst sep s.data with
  | some p => [⟨p.1⟩, ⟨p.2⟩]
  | none => [s]

/-! ## Data model

Subjects, relying parties and the three ticket shapes, following §3 of the
spec and the `model.SsoOAuthTicket` / `SsoCASTicket` / `SsoNginxTicket`
creations in `sso.GetOAuthAuthorize`, `GetCASAuthorize`, `GetNginxAuthorize`.
Times are unix seconds as `Nat`. -/

/-- A subject: the canonical claims the core reads from the user row. -/
structure User where
  id : Nat
  name : String
  username : String
  email : String
  phoneNumber : String
  ctyunId : String
deriving DecidableEq

/-- A relying party (site) with every protocol key the engines read. -/
structure Site where
  name : String
  clientId : String
  clientSecret : String
  callbackUrl : String
  allOpen : Bool
  users : List Nat
  certificate : String
  domainId : String
  redirectUrl : String
  idpName : String
  address : String
  entityId : String
deriving DecidableEq

/-- OAuth authorization-code row (`model.SsoOAuthTicket`). -/
structure OAuthTicket where
  code : String
  redirectURI : String
  userId : Nat
  expiresAt : Nat
  consumedAt : Option Nat
  nonce : String
deriving DecidableEq

/-- CAS service-ticket row (`model.SsoCASTicket`). -/
structure CASTicket where
  ticket : String
  service : String
  userId : Nat
  expiresAt : Nat
  consumedAt : Option Nat
deriving DecidableEq

/-- Nginx cookie-token row (`model.SsoNginxTicket`); it has no consumed mark. -/
structure NginxTicket where
  token : String
  userId : Nat
  expiresAt : Nat
deriving DecidableEq

/-- The three ticket tables of the persisted state. -/
structure TicketStore where
  oauth : List OAuthTicket
  cas : List CASTicket
  nginx : List NginxTicket
deriving DecidableEq

/-- The empty persisted state. -/
def emptyStore : TicketStore := ⟨[], [], []⟩

/-! ## Ticket store operations (src/unnamed/part_001, package dao)

`GetAuthorizeCode` / `GetAuthorizeTicket` select the first row whose value
matches, whose `expires_at` is in the future and whose `consumed_at` is NULL,
and then stamp `consumed_at = now` on that row.  `GetAuthorizeToken` only
selects (no consumed column, no stamping). -/

/-- Find the first element satisfying `p`; return it together with the list in
which that element has been replaced by `stamp` of it.  This is the sequential
effect of the dao's SELECT-then-UPDATE pair. -/
def consumeFirst {α : Type} (p : α → Bool) (stamp : α → α) : List α → Option (α × List α)
  | [] => none
  | r :: rs =>
    if p r then some (r, stamp r :: rs)
    else
      match consumeFirst p stamp rs with
      | some (t, rs') => some (t, r :: rs')
      | none => none

/-- dao.SSO.GetAuthorizeCode: fetch a live, unconsumed OAuth code row
(`code = ? AND expires_at > now AND consumed_at IS NULL`) and stamp
`consumed_at = now` on it. -/
def getAuthorizeCode (code : String) (now : Nat) (rows : List OAuthTicket) :
    Option (OAuthTicket × List OAuthTicket) :=
  consumeFirst
    (fun r => r.code == code && decide (now < r.expiresAt) && r.consumedAt.isNone)
    (fun r => { r with consumedAt := some now }) rows

/-- dao.SSO.GetAuthorizeTicket: fetch a live, unconsumed CAS ticket row and
stamp `consumed_at = now` on it. -/
def getAuthorizeTicket (tk : String) (now : Nat) (rows : List CASTicket) :
    Option (CASTicket × List CASTicket) :=
  consumeFirst
    (fun r => r.ticket == tk && decide (now < r.expiresAt) && r.consumedAt.isNone)
    (fun r => { r with consumedAt := some now }) rows

/-- dao.SSO.GetAuthorizeToken: fetch a live Nginx token row
(`token = ? AND expires_at > now`); nothing is consumed or written. -/
def getAuthorizeToken (token : String) (now : Nat) (rows : List NginxTicket) :
    Option NginxTicket :=
  rows.find? (fun r => r.token == token && decide (now < r.expiresAt))

/-! ## Site registry and subject store

These dao lookups are called by the engines but their bodies are not among the
provided sources; they are modelled from the spec (§1 external collaborators,
§3 RelyingParty keys, §4.2). -/

/-- Modelled from the spec: `dao.Site.GetOAuthSite` is not under src/; the Site
Registry resolves an OAuth relying party by its `client_id`. -/
def getOAuthSite (sites : List Site) (clientId : String) : Option Site :=
  sites.find? (fun s => s.clientId == clientId)

/-- Modelled from the spec: `dao.Site.GetCASSite` is not under src/; the Site
Registry resolves a CAS relying party when its registered service URL starts
the requested `service` string. -/
def getCASSite (sites : List Site) (service : String) : Option Site :=
  sites.find? (fun s => goStartsWith service s.callbackUrl)

/-- Modelled from the spec: `dao.Site.GetNginxSite` is not under src/; the Site
Registry resolves an Nginx relying party by its callback URL. -/
def getNginxSite (sites : List Site) (callbackUrl : String) : Option Site :=
  sites.find? (fun s => s.callbackUrl == callbackUrl)

/-- Modelled from the spec: `dao.Site.GetSamlSite` is not under src/; the Site
Registry resolves a SAML relying party by its SP entity id. -/
def getSamlSite (sites : List Site) (entityId : String) : Option Site :=
  sites.find? (fun s => s.entityId == entityId)

/-- Modelled from the spec: `dao.Site.IsUserInSite` is not under src/; it tests
membership of the subject in the site's list of authorized subjects. -/
def isUserInSite (userId : Nat) (site : Site) : Bool :=
  site.users.contains userId

/-- Modelled from the spec: `dao.User.GetUserInfo` is not under src/; the
SubjectStore looks a user up by id.  A missing row yields no user value and
surfaces the store's record-not-found error (the engines that check the error
return it verbatim; `sso.GetToken` does not check it and dereferences the nil
result). -/
def getUserInfo (users : List User) (id : Nat) : Option User :=
  users.find? (fun u => u.id == id)

/-! ## Environment

Immutable per-request context: configuration (`config.Conf.Settings`), the
registries, the clock, and the external collaborators (`utils.Encrypt`,
`utils.Decrypt`, HMAC-SHA256-hex, `middleware.GenerateOAuthToken`, the SAML
library).  The random 32-char string minted by `utils.GenerateRandomString`
is an input, as is the outcome of each external library call. -/

/-- Fields extracted from a decoded SAML AuthnRequest by
`utils.ParseSAMLRequest`: the SP entity id (`Issuer.Value`) and the ACS URL. -/
structure SAMLRequestData where
  issuerValue : String
  assertionConsumerServiceURL : String
deriving DecidableEq

/-- The SAML IdP context `sso.GetSPAuthorize` assembles before signing: the
fields of the library's `saml.IdentityProvider` value that the code sets. -/
structure IdPContext where
  issuer : String
  audiences : List String
  idpKey : String
  idpCert : String
  spCert : String
  nameIdentifier : String
  nameIdFormat : String
  acsLocation : String
  sessionIndex : String
  relayState : String
  attributes : List (String × String)
deriving DecidableEq

/-- Per-request environment of the SSO service functions. -/
structure Env where
  sites : List Site
  users : List User
  now : Nat
  randomString : String
  encrypt : String → Except String String
  decrypt : String → Except String String
  hmacHex : String → String
  externalUrl : String
  privateKey : String
  certificate : String
  generateOAuthToken : Nat → String → String → String → String → String → Except String String
  parseSAMLRequest : String → Except String SAMLRequestData
  validateAuthnGET : Except String Unit
  validateAuthnPOST : Except String Unit
  signLoginResponse : IdPContext → Except String String
  base64Encode : String → String
  renderPostForm : String → String → String → String
  sessionIndex : String

/-! ## Request parameter records (src/global/global.go) -/

/-- `service.OAuthAuthorize`. -/
structure OAuthAuthorize where
  responseType : String
  clientId : String
  redirectURI : String
  state : String
  scope : String
  nonce : String
deriving DecidableEq

/-- `service.CASAuthorize`. -/
structure CASAuthorize where
  service : String
deriving DecidableEq

/-- `service.NginxAuthorize`. -/
structure NginxAuthorize where
  callbackURL : String
deriving DecidableEq

/-- `service.SAMLRequest` (request parameters of the SAML engine). -/
structure SAMLRequestParams where
  samlRequest : String
  relayState : String
  sigAlg : String
  sigValue : String
deriving DecidableEq

/-- `service.Token` (OAuth token-endpoint form parameters). -/
structure TokenParams where
  grantType : String
  code : String
  clientId : String
  redirectURI : String
  clientSecret : String
deriving DecidableEq

/-- `service.ResponseToken`, the OAuth token-endpoint response body. -/
structure ResponseToken where
  idToken : String
  accessToken : String
  tokenType : String
  expiresIn : Nat
  refreshToken : String
  scope : String
deriving DecidableEq

/-- `service.CASServiceResponse` flattened: the success payload of
`/p3/serviceValidate`. -/
structure CASServiceResponse where
  user : String
  attrId : Nat
  attrName : String
  attrUsername : String
  attrEmail : String
  attrPhoneNumber : String
deriving DecidableEq

/-- Result triple of the authorize engines: Go's
`(callbackUrl-or-html, siteName, err)`. -/
structure AuthResult where
  data : String
  siteName : String
  err : Option String
deriving DecidableEq

/-- Outcome of a Go function that can also panic at runtime. -/
inductive GoResult (α : Type) where
  | ok : α → GoResult α
  | err : String → GoResult α
  | panicNilDeref : GoResult α
deriving DecidableEq

/-! ## Engines (src/global/global.go, package service) -/

/-- Join character for appending a query parameter, as each authorize engine
computes it: `&` when the callback URL already contains `?`, else `?`. -/
def goSeparator (url : String) : String :=
  if goContains url "?" then "&" else "?"

/-- sso.GetNginxAuthorize: resolve the site by callback URL, enforce access,
mint the random token, store it with a 12-hour expiry (plaintext in the row,
encrypted in the redirect), and return `<callback>?token=<enc>`.  The error of
`utils.Encrypt` is not checked by this engine. -/
def getNginxAuthorize (env : Env) (data : NginxAuthorize) (userId : Nat)
    (st : TicketStore) : AuthResult × TicketStore :=
  match getNginxSite env.sites data.callbackURL with
  | none => (⟨"", "", some "应用未注册或配置错误"⟩, st)
  | some site =>
    if !site.allOpen && !isUserInSite userId site then
      (⟨"", site.name, some "您无权访问该应用"⟩, st)
    else
      let str := env.randomString
      let code := match env.encrypt str with | .ok c => c | .error _ => ""
      let ticket : NginxTicket := { token := str, userId := userId, expiresAt := env.now + 12 * 3600 }
      let st' := { st with nginx := st.nginx ++ [ticket] }
      (⟨site.callbackUrl ++ "?token=" ++ code, site.name, none⟩, st')

/-- Ticket body `ST-<unix>-<username>` built by sso.GetCASAuthorize. -/
def casTicketBody (now : Nat) (username : String) : String :=
  "ST-" ++ Nat.repr now ++ "-" ++ username

/-- Full CAS ticket `body-hex(HMAC_SHA256(secret, body))`. -/
def casTicketFull (hmacHex : String → String) (now : Nat) (username : String) : String :=
  casTicketBody now username ++ "-" ++ hmacHex (casTicketBody now username)

/-- The `model.SsoCASTicket` row sso.GetCASAuthorize persists: the full signed
ticket, the site's callback URL as service, the subject id and a 10-second
expiry. -/
def casIssuedRow (env : Env) (site : Site) (userId : Nat) (username : String) :
    CASTicket :=
  { ticket := casTicketFull env.hmacHex env.now username,
    service := site.callbackUrl, userId := userId,
    expiresAt := env.now + 10, consumedAt := none }

/-- sso.GetCASAuthorize: resolve the site by service URL, enforce access,
build and sign the ticket, store it with a 10-second expiry, and return
`<callback><sep>ticket=<full>`. -/
def getCASAuthorize (env : Env) (data : CASAuthorize) (userId : Nat)
    (username : String) (st : TicketStore) : AuthResult × TicketStore :=
  match getCASSite env.sites data.service with
  | none => (⟨"", "", some "应用未注册或配置错误"⟩, st)
  | some site =>
    if !site.allOpen && !isUserInSite userId site then
      (⟨"", site.name, some "您无权访问该应用"⟩, st)
    else
      let full := casTicketFull env.hmacHex env.now username
      let st' := { st with cas := st.cas ++ [casIssuedRow env site userId username] }
      (⟨site.callbackUrl ++ goSeparator site.callbackUrl ++ "ticket=" ++ full,
        site.name, none⟩, st')

/-- sso.ServiceValidate: verify the site, fetch-and-consume the ticket, check
the 4-part structure, recompute and compare the HMAC, then look the user up
and build the CAS success payload. -/
def serviceValidate (env : Env) (service ticket : String) (st : TicketStore) :
    Except String CASServiceResponse × TicketStore :=
  match getCASSite env.sites service with
  | none => (.error "service string is invalid", st)
  | some _ =>
    match getAuthorizeTicket ticket env.now st.cas with
    | none => (.error "ticket string is invalid", st)
    | some (ticketInfo, cas') =>
      let st' := { st with cas := cas' }
      let parts := goSplit ticket '-'
      if parts.length == 4 then
        let body := parts.getD 0 "" ++ "-" ++ parts.getD 1 "" ++ "-" ++ parts.getD 2 ""
        let sigPart := parts.getD 3 ""
        if env.hmacHex body == sigPart then
          match getUserInfo env.users ticketInfo.userId with
          | none => (.error "record not found", st')
          | some user =>
            (.ok ⟨user.username, user.id, user.name, user.username,
                  user.email, user.phoneNumber⟩, st')
        else (.error "ticket string is invalid", st')
      else (.error "ticket string is invalid", st')

/-- sso.GetOAuthAuthorize: resolve the site by client id, enforce access, mint
the random code, store its plaintext with a 10-second expiry, and return
`<callback><sep>code=<enc>&state=<state>`. -/
def getOAuthAuthorize (env : Env) (data : OAuthAuthorize) (userId : Nat)
    (st : TicketStore) : AuthResult × TicketStore :=
  match getOAuthSite env.sites data.clientId with
  | none => (⟨"", "", some "应用未注册或配置错误"⟩, st)
  | some site =>
    if !site.allOpen && !isUserInSite userId site then
      (⟨"", site.name, some "您无权访问该应用"⟩, st)
    else
      let str := env.randomString
      match env.encrypt str with
      | .error e => (⟨"", site.name, some e⟩, st)
      | .ok code =>
        let ticket : OAuthTicket := { code := str, redirectURI := site.callbackUrl,
                                      userId := userId, expiresAt := env.now + 10,
                                      consumedAt := none, nonce := data.nonce }
        let st' := { st with oauth := st.oauth ++ [ticket] }
        (⟨site.callbackUrl ++ goSeparator site.callbackUrl ++ "code=" ++ code
            ++ "&state=" ++ data.state, site.name, none⟩, st')

/-- sso.GetToken: validate site and secret, decrypt the presented code
(discarding the decryption error, so a failed decryption proceeds with the
zero-value empty string), fetch-and-consume the code row, look the user up
without checking the error (a missing user is a nil dereference at
`user.ID`), and emit the token response. -/
def getToken (env : Env) (param : TokenParams) (st : TicketStore) :
    GoResult ResponseToken × TicketStore :=
  match getOAuthSite env.sites param.clientId with
  | none => (.err "client_id string is invalid", st)
  | some site =>
    if site.clientSecret != param.clientSecret then
      (.err "client_secret string is invalid", st)
    else
      let code := match env.decrypt param.code with | .ok s => s | .error _ => ""
      match getAuthorizeCode code env.now st.oauth with
      | none => (.err "code string is invalid", st)
      | some (ticket, oauth') =>
        let st' := { st with oauth := oauth' }
        match getUserInfo env.users ticket.userId with
        | none => (.panicNilDeref, st')
        | some user =>
          match env.generateOAuthToken user.id user.name user.username
              site.clientId "readwrite" ticket.nonce with
          | .error e => (.err e, st')
          | .ok idToken =>
            (.ok { idToken := idToken, accessToken := idToken,
                   tokenType := "bearer", expiresIn := 3600,
                   refreshToken := "", scope := "openid" }, st')

/-- The `saml.IdentityProvider` value sso.GetSPAuthorize assembles: base
fields, then the Aliyun NameID override, the four generic attributes, the AWS
override, the Huawei attributes and the CTYun attributes, in source order. -/
def samlIdPContext (env : Env) (requestData : SAMLRequestData) (site : Site)
    (userinfo : User) : IdPContext :=
  let spCert :=
    if !(goStartsWith site.certificate "-----BEGIN CERTIFICATE-----")
        && !(goEndsWith site.certificate "-----END CERTIFICATE-----") then
      "-----BEGIN CERTIFICATE-----\n" ++ site.certificate ++ "\n-----END CERTIFICATE-----\n"
    else site.certificate
  let idp0 : IdPContext :=
    { issuer := env.externalUrl
      audiences := [requestData.issuerValue]
      idpKey := env.privateKey
      idpCert := env.certificate
      spCert := spCert
      nameIdentifier := userinfo.username
      nameIdFormat := "urn:oasis:names:tc:SAML:1.1:nameid-format:unspecified"
      acsLocation := requestData.assertionConsumerServiceURL
      sessionIndex := env.sessionIndex
      relayState := ""
      attributes := [] }
  let idp1 :=
    if goStartsWith requestData.issuerValue "https://signin.aliyun.com" then
      { idp0 with nameIdentifier := userinfo.username ++ "@" ++ site.domainId }
    else idp0
  let idp2 :=
    { idp1 with attributes := idp1.attributes ++
        [("name", userinfo.name), ("username", userinfo.username),
         ("email", userinfo.email), ("phone_number", userinfo.phoneNumber)] }
  let idp3 :=
    if goContains site.address "awsapps" then
      { idp2 with
          nameIdFormat := "urn:oasis:names:tc:SAML:1.1:nameid-format:emailAddress"
          nameIdentifier := userinfo.email
          attributes := idp2.attributes ++ [("username", userinfo.email)] }
    else idp2
  let idp4 :=
    { idp3 with attributes := idp3.attributes ++
        [("IAM_SAML_Attributes_xUserId", userinfo.username),
         ("IAM_SAML_Attributes_redirect_url", site.redirectUrl),
         ("IAM_SAML_Attributes_domain_id", site.domainId),
         ("IAM_SAML_Attributes_idp_id", site.idpName)] }
  { idp4 with attributes := idp4.attributes ++
      [("nickName", userinfo.name), ("accountId", site.domainId),
       ("userId", userinfo.ctyunId), ("idpId", site.domainId)] }

/-- Tail of sso.GetSPAuthorize once the AuthnRequest validated: sign the
response, base64 it and render the auto-POST form. -/
def spAuthorizeRespond (env : Env) (idp : IdPContext) (site : Site)
    (st : TicketStore) : AuthResult × TicketStore :=
  match env.signLoginResponse idp with
  | .error e => (⟨"", site.name, some e⟩, st)
  | .ok signedXML =>
    (⟨env.renderPostForm idp.acsLocation (env.base64Encode signedXML) idp.relayState,
      site.name, none⟩, st)

/-- sso.GetSPAuthorize: decode the AuthnRequest, resolve the site by SP entity
id, enforce access, look the user up, assemble the IdP context, validate the
request first as GET then as POST, and respond with the auto-POST form.  No
ticket row is ever written. -/
def getSPAuthorize (env : Env) (samlReq : SAMLRequestParams) (userId : Nat)
    (st : TicketStore) : AuthResult × TicketStore :=
  match env.parseSAMLRequest samlReq.samlRequest with
  | .error e => (⟨"", "", some e⟩, st)
  | .ok requestData =>
    match getSamlSite env.sites requestData.issuerValue with
    | none => (⟨"", "", some "应用未注册或配置错误"⟩, st)
    | some site =>
      if !site.allOpen && !isUserInSite userId site then
        (⟨"", site.name, some "您无权访问该应用"⟩, st)
      else
        match getUserInfo env.users userId with
        | none => (⟨"", site.name, some "record not found"⟩, st)
        | some userinfo =>
          let idp := samlIdPContext env requestData site userinfo
          match env.validateAuthnGET with
          | .ok _ => spAuthorizeRespond env idp site st
          | .error _ =>
            match env.validateAuthnPOST with
            | .ok _ => spAuthorizeRespond env idp site st
            | .error e2 => (⟨"", site.name, some e2⟩, st)

/-! ## Protocol dispatcher (sso.Login) -/

/-- The untyped authorize-parameter bag as `sso.Login` reads it through the
`AuthorizeParam` getters. -/
structure AuthorizeParam where
  responseType : String
  clientId : String
  redirectURI : String
  state : String
  scope : String
  nonce : String
  service : String
  samlRequest : String
  relayState : String
  sigAlg : String
  sigValue : String
  nginxRedirectURI : String
deriving DecidableEq

/-- `model.AuthUser`, restricted to the fields `sso.Login` reads. -/
structure AuthUser where
  id : Nat
  username : String
deriving DecidableEq

/-- Result triple of `sso.Login`: `(callbackData, appName, err)`. -/
structure LoginResult where
  callbackData : String
  appName : String
  err : Option String
deriving DecidableEq

/-- OAuth branch of `sso.Login`: call the OAuth engine and propagate
`("", siteName, err)` on failure. -/
def loginOAuthBranch (env : Env) (q : AuthorizeParam) (user : AuthUser)
    (st : TicketStore) : LoginResult × TicketStore :=
  let r := getOAuthAuthorize env
    ⟨q.responseType, q.clientId, q.redirectURI, q.state, q.scope, q.nonce⟩ user.id st
  match r.1.err with
  | some e => (⟨"", r.1.siteName, some e⟩, r.2)
  | none => (⟨r.1.data, r.1.siteName, none⟩, r.2)

/-- CAS branch of `sso.Login`. -/
def loginCASBranch (env : Env) (q : AuthorizeParam) (user : AuthUser)
    (st : TicketStore) : LoginResult × TicketStore :=
  let r := getCASAuthorize env ⟨q.service⟩ user.id user.username st
  match r.1.err with
  | some e => (⟨"", r.1.siteName, some e⟩, r.2)
  | none => (⟨r.1.data, r.1.siteName, none⟩, r.2)

/-- SAML branch of `sso.Login`. -/
def loginSAMLBranch (env : Env) (q : AuthorizeParam) (user : AuthUser)
    (st : TicketStore) : LoginResult × TicketStore :=
  let r := getSPAuthorize env ⟨q.samlRequest, q.relayState, q.sigAlg, q.sigValue⟩ user.id st
  match r.1.err with
  | some e => (⟨"", r.1.siteName, some e⟩, r.2)
  | none => (⟨r.1.data, r.1.siteName, none⟩, r.2)

/-- Nginx branch of `sso.Login` (returns the engine triple directly). -/
def loginNginxBranch (env : Env) (q : AuthorizeParam) (user : AuthUser)
    (st : TicketStore) : LoginResult × TicketStore :=
  let r := getNginxAuthorize env ⟨q.nginxRedirectURI⟩ user.id st
  match r.1.err with
  | some e => (⟨"", r.1.siteName, some e⟩, r.2)
  | none => (⟨r.1.data, r.1.siteName, none⟩, r.2)

/-- sso.Login: first-match dispatch over the parameter bag — OAuth when
`response_type`, `client_id` and `redirect_uri` are all non-empty, else CAS
when `service` is non-empty, else SAML when `SAMLRequest` is non-empty, else
Nginx when the Nginx callback is non-empty, else the empty result with no
error. -/
def login (env : Env) (q : AuthorizeParam) (user : AuthUser) (st : TicketStore) :
    LoginResult × TicketStore :=
  if q.responseType != "" && q.clientId != "" && q.redirectURI != "" then
    loginOAuthBranch env q user st
  else if q.service != "" then
    loginCASBranch env q user st
  else if q.samlRequest != "" then
    loginSAMLBranch env q user st
  else if q.nginxRedirectURI != "" then
    loginNginxBranch env q user st
  else
    (⟨"", "", none⟩, st)

/-! ## Logout handler (src/controller/user.go) -/

/-- Outcome of the Logout handler: either the raw bearer string stored in the
revocation cache, or the runtime panic raised by indexing a missing slice
element. -/
inductive LogoutOutcome where
  | revoked : String → LogoutOutcome
  | panicIndexOutOfRange : LogoutOutcome
deriving DecidableEq

/-- user.Logout: read the Authorization header, `strings.SplitN(token, " ", 2)`
and unconditionally index `parts[1]`; when the header holds no space the slice
has one element and the access panics. -/
def logout (authHeader : String) : LogoutOutcome :=
  let parts := goSplitN2 authHeader ' '
  match parts[1]? with
  | some tk => .revoked tk
  | none => .panicIndexOutOfRange

/-! ## Interleaving model of GetAndConsume (claim C4)

`dao.SSO.GetAuthorizeCode` / `GetAuthorizeTicket` execute two separate
database statements: a SELECT of the live row
(`... AND expires_at > ? AND consumed_at IS NULL`) and then an unconditional
UPDATE stamping `consumed_at`.  Each statement is atomic on its own; the pair
is not.  The model runs two callers of the pair over one ticket row under an
explicit schedule. -/

/-- Progress of one caller through the SELECT / UPDATE pair. -/
inductive ConsumePhase where
  | start
  | readOk
  | readFail
  | succeeded
  | failed
deriving DecidableEq

/-- State of the race: the row's `consumed_at` column and both callers. -/
structure RaceState where
  consumedAt : Option Nat
  a : ConsumePhase
  b : ConsumePhase
deriving DecidableEq

/-- One database statement of one caller: at `start` the SELECT reads the
row's liveness; at `readOk` the UPDATE stamps `consumed_at` and the caller
returns success; at `readFail` the caller returns the not-found error. -/
def consumeStep (now expiresAt : Nat) (ph : ConsumePhase) (consumedAt : Option Nat) :
    ConsumePhase × Option Nat :=
  match ph with
  | .start =>
    (if decide (now < expiresAt) && consumedAt.isNone then .readOk else .readFail,
     consumedAt)
  | .readOk => (.succeeded, some now)
  | .readFail => (.failed, consumedAt)
  | p => (p, consumedAt)

/-- Run the two callers under a schedule (`true` steps caller `a`). -/
def runRace (now expiresAt : Nat) : List Bool → RaceState → RaceState
  | [], s => s
  | c :: cs, s =>
    if c then
      let r := consumeStep now expiresAt s.a s.consumedAt
      runRace now expiresAt cs { s with a := r.1, consumedAt := r.2 }
    else
      let r := consumeStep now expiresAt s.b s.consumedAt
      runRace now expiresAt cs { s with b := r.1, consumedAt := r.2 }

/-! ## Concrete fixtures for witnesses and counterexamples -/

/-- A CAS/OAuth/Nginx relying party used by concrete instances. -/
def site0 : Site :=
  { name := "demo", clientId := "demo", clientSecret := "s3cret",
    callbackUrl := "https://app/cas", allOpen := true, users := [7],
    certificate := "CERT", domainId := "123", redirectUrl := "https://app/redir",
    idpName := "idsphere", address := "https://app", entityId := "https://app/sp" }

/-- A subject used by concrete instances. -/
def user0 : User :=
  { id := 7, name := "Alice", username := "alice", email := "alice@x.io",
    phoneNumber := "100", ctyunId := "ct7" }

/-- The subject of the SAML scenarios. -/
def carol : User :=
  { id := 3, name := "Carol", username := "carol", email := "c@x.io",
    phoneNumber := "101", ctyunId := "ct3" }

/-- A SAML site whose entity id is Aliyun's but whose address contains
`awsapps`, so that both vendor overrides fire. -/
def siteAws : Site :=
  { name := "aws-aliyun", clientId := "", clientSecret := "",
    callbackUrl := "https://acs", allOpen := true, users := [3],
    certificate := "CERT", domainId := "123", redirectUrl := "",
    idpName := "idsphere", address := "https://x.awsapps.com/start",
    entityId := "https://signin.aliyun.com/x" }

/-- AuthnRequest data carrying the Aliyun SP entity id. -/
def rdAliyun : SAMLRequestData :=
  { issuerValue := "https://signin.aliyun.com/x",
    assertionConsumerServiceURL := "https://acs" }

/-- Concrete environment: one site, one user, a constant-signature MAC. -/
def env0 : Env :=
  { sites := [site0], users := [user0], now := 100, randomString := "r32",
    encrypt := fun s => .ok ("enc:" ++ s), decrypt := fun s => .ok s,
    hmacHex := fun _ => "cafe", externalUrl := "https://idp",
    privateKey := "PK", certificate := "IDPCERT",
    generateOAuthToken := fun _ _ _ _ _ _ => .ok "jwt0",
    parseSAMLRequest := fun _ => .ok rdAliyun,
    validateAuthnGET := .ok (), validateAuthnPOST := .ok (),
    signLoginResponse := fun _ => .ok "xml", base64Encode := fun s => s,
    renderPostForm := fun u s r => u ++ "|" ++ s ++ "|" ++ r,
    sessionIndex := "sess" }

/-- `env0` with no user rows: the subject store misses every lookup. -/
def envNoUsers : Env := { env0 with users := [] }

/-- A CAS ticket row matching the `env0` constant MAC, owned by a user id
that is absent from every user store. -/
def danglingTicket : CASTicket :=
  { ticket := "ST-5-bob-cafe", service := "https://app/cas", userId := 42,
    expiresAt := 200, consumedAt := none }

/-- Store holding only `danglingTicket`. -/
def storeDangling : TicketStore := { oauth := [], cas := [danglingTicket], nginx := [] }

/-- The authenticated subject handed to `login`. -/
def authUser0 : AuthUser := ⟨7, "alice"⟩

/-- A parameter bag in which every engine trigger is present at once. -/
def qAllTriggers : AuthorizeParam :=
  ⟨"code", "demo", "https://app/cb", "x", "openid", "n1", "https://app/cas",
   "c2FtbA==", "rs", "alg", "sg", "https://app/nginx"⟩

/-- A parameter bag matching none of the four triggers. -/
def qNoTriggers : AuthorizeParam := ⟨"", "", "", "", "", "", "", "", "", "", "", ""⟩

/-- `site0` closed to a membership that excludes user 7. -/
def siteClosed : Site := { site0 with name := "closed", allOpen := false, users := [1, 2] }

/-- Environment whose only site denies user 7. -/
def envClosed : Env := { env0 with sites := [siteClosed] }

/-- A live OAuth code row for the token-exchange scenarios. -/
def rowC6 : OAuthTicket :=
  { code := "c0", redirectURI := "https://app/cas", userId := 7,
    expiresAt := 150, consumedAt := none, nonce := "n1" }

/-- Store holding only `rowC6`. -/
def storeOAuth : TicketStore := { oauth := [rowC6], cas := [], nginx := [] }

/-- Token-endpoint form matching `site0` and `rowC6` under `env0`. -/
def paramC6 : TokenParams :=
  { grantType := "authorization_code", code := "c0", clientId := "demo",
    redirectURI := "", clientSecret := "s3cret" }

/-- An Aliyun SAML site whose address does not contain `awsapps`. -/
def siteAliyun : Site := { siteAws with address := "https://home.console.aliyun.com" }

/-! ## Helper lemmas: consumeFirst -/

theorem consumeFirst_isSome {α : Type} (p : α → Bool) (stamp : α → α) (l : List α) :
    (consumeFirst p stamp l).isSome = true ↔ ∃ r ∈ l, p r = true := by
  induction l with
  | nil => simp [consumeFirst]
  | cons a l ih =>
    by_cases h : p a = true
    · simp [consumeFirst, h]
    · rw [consumeFirst, if_neg h]
      cases hc : consumeFirst p stamp l with
      | none =>
        rw [hc] at ih
        simp only [Option.isSome_none, Bool.false_eq_true, false_iff] at ih ⊢
        push_neg at ih ⊢
        intro r hr
        rcases List.mem_cons.mp hr with rfl | hr'
        · simpa using h
        · exact ih r hr'
      | some pr =>
        rw [hc] at ih
        obtain ⟨t, rs'⟩ := pr
        simp only [Option.isSome_some, true_iff] at ih
        obtain ⟨r, hr, hpr⟩ := ih
        simp only [Option.isSome_some, true_iff]
        exact ⟨r, List.mem_cons_of_mem a hr, hpr⟩

theorem consumeFirst_eq_none {α : Type} {p : α → Bool} {stamp : α → α} {l : List α}
    (h : ∀ r ∈ l, p r = false) : consumeFirst p stamp l = none := by
  induction l with
  | nil => rfl
  | cons a l ih =>
    rw [consumeFirst, if_neg (by simp [h a (List.mem_cons_self a l)]),
      ih (fun r hr => h r (List.mem_cons_of_mem a hr))]

theorem consumeFirst_eq_some {α : Type} {p : α → Bool} {stamp : α → α}
    {l l' : List α} {t : α} (h : consumeFirst p stamp l = some (t, l')) :
    ∃ l₁ l₂, l = l₁ ++ t :: l₂ ∧ l' = l₁ ++ stamp t :: l₂ ∧
      (∀ r ∈ l₁, p r = false) ∧ p t = true := by
  induction l generalizing l' with
  | nil => simp [consumeFirst] at h
  | cons a l ih =>
    by_cases hp : p a = true
    · rw [consumeFirst, if_pos hp] at h
      obtain ⟨rfl, rfl⟩ : a = t ∧ stamp a :: l = l' := by
        constructor <;> { injection h with h'; cases h'; rfl }
      exact ⟨[], l, rfl, rfl, by simp, hp⟩
    · rw [consumeFirst, if_neg hp] at h
      cases hc : consumeFirst p stamp l with
      | none => rw [hc] at h; simp at h
      | some pr =>
        obtain ⟨t', rs'⟩ := pr
        rw [hc] at h
        simp only [Option.some.injEq, Prod.mk.injEq] at h
        obtain ⟨rfl, rfl⟩ := h
        obtain ⟨l₁, l₂, h1, h2, h3, h4⟩ := ih hc
        refine ⟨a :: l₁, l₂, by rw [h1]; rfl, by rw [h2]; rfl, ?_, h4⟩
        intro r hr
        rcases List.mem_cons.mp hr with rfl | hr'
        · simpa using hp
        · exact h3 r hr'

theorem consumeFirst_after_consume {α : Type} {p p' : α → Bool}
    {stamp stamp' : α → α} {l l' : List α} {t : α} (key : α → Bool)
    (h : consumeFirst p stamp l = some (t, l'))
    (huniq : l.countP key ≤ 1)
    (hpk : ∀ r, p r = true → key r = true)
    (hp'k : ∀ r, p' r = true → key r = true)
    (hst : p' (stamp t) = false) :
    consumeFirst p' stamp' l' = none := by
  obtain ⟨l₁, l₂, hl, hl', hfail, hpt⟩ := consumeFirst_eq_some h
  subst hl hl'
  have hkt : key t = true := hpk t hpt
  have hcount : l₁.countP key + (l₂.countP key + 1) ≤ 1 := by
    simpa [List.countP_append, List.countP_cons, hkt] using huniq
  have h₁ : ∀ r ∈ l₁, key r = false := by
    intro r hr
    have : l₁.countP key = 0 := by omega
    have := (List.countP_eq_zero).mp this r hr
    simpa using this
  have h₂ : ∀ r ∈ l₂, key r = false := by
    intro r hr
    have : l₂.countP key = 0 := by omega
    have := (List.countP_eq_zero).mp this r hr
    simpa using this
  apply consumeFirst_eq_none
  intro r hr
  rcases List.mem_append.mp hr with hr₁ | hr₂
  · cases hv : p' r with
    | false => rfl
    | true =>
      have := hp'k r hv
      rw [h₁ r hr₁] at this
      simp at this
  · rcases List.mem_cons.mp hr₂ with rfl | hr₃
    · exact hst
    · cases hv : p' r with
      | false => rfl
      | true =>
        have := hp'k r hv
        rw [h₂ r hr₃] at this
        simp at this

/-! ## Helper lemmas: splitting and digits -/

theorem splitOnChar_ne_nil (sep : Char) (l : List Char) : splitOnChar sep l ≠ [] := by
  cases l with
  | nil => simp [splitOnChar]
  | cons c cs =>
    rw [splitOnChar]
    cases h : splitOnChar sep cs with
    | nil => simp
    | cons g gs =>
      by_cases hc : c = sep
      · simp [hc]
      · simp [hc]

theorem splitOnChar_no_sep {sep : Char} {l : List Char} (h : sep ∉ l) :
    splitOnChar sep l = [l] := by
  induction l with
  | nil => rfl
  | cons c cs ih =>
    have hcs : sep ∉ cs := fun hx => h (List.mem_cons_of_mem c hx)
    have hc : ¬c = sep := fun hx => h (hx ▸ List.mem_cons_self c cs)
    rw [splitOnChar, ih hcs]
    simp [hc]

theorem splitOnChar_append_sep {sep : Char} {xs : List Char} (ys : List Char)
    (h : sep ∉ xs) :
    splitOnChar sep (xs ++ sep :: ys) = xs :: splitOnChar sep ys := by
  induction xs with
  | nil =>
    rw [List.nil_append, splitOnChar]
    cases hc : splitOnChar sep ys with
    | nil => exact absurd hc (splitOnChar_ne_nil sep ys)
    | cons g gs => simp
  | cons c cs ih =>
    have hcs : sep ∉ cs := fun hx => h (List.mem_cons_of_mem c hx)
    have hc : ¬c = sep := fun hx => h (hx ▸ List.mem_cons_self c cs)
    rw [List.cons_append, splitOnChar, ih hcs]
    have hne := splitOnChar_ne_nil sep ys
    simp [hc]

theorem string_data_append (s t : String) : (s ++ t).data = s.data ++ t.data := rfl

theorem string_mk_data (l : List Char) : (String.mk l).data = l := rfl

theorem string_eq_of_data {s t : String} (h : s.data = t.data) : s = t :=
  congrArg String.mk h

theorem digitChar_ne_dash (n : Nat) : Nat.digitChar n ≠ '-' := by
  rcases Nat.lt_or_ge n 16 with h16 | h16
  · interval_cases n <;> decide
  · have h0 : ¬n = 0 := by omega
    have h1 : ¬n = 1 := by omega
    have h2 : ¬n = 2 := by omega
    have h3 : ¬n = 3 := by omega
    have h4 : ¬n = 4 := by omega
    have h5 : ¬n = 5 := by omega
    have h6 : ¬n = 6 := by omega
    have h7 : ¬n = 7 := by omega
    have h8 : ¬n = 8 := by omega
    have h9 : ¬n = 9 := by omega
    have h10 : ¬n = 10 := by omega
    have h11 : ¬n = 11 := by omega
    have h12 : ¬n = 12 := by omega
    have h13 : ¬n = 13 := by omega
    have h14 : ¬n = 14 := by omega
    have h15 : ¬n = 15 := by omega
    simp only [Nat.digitChar, h0, h1, h2, h3, h4, h5, h6, h7, h8, h9, h10, h11,
      h12, h13, h14, h15, if_false]
    decide

theorem toDigitsCore_no_dash (b : Nat) :
    ∀ (fuel n : Nat) (acc : List Char), '-' ∉ acc →
      '-' ∉ Nat.toDigitsCore b fuel n acc := by
  intro fuel
  induction fuel with
  | zero => intro n acc h; simpa [Nat.toDigitsCore] using h
  | succ f ih =>
    intro n acc h
    rw [Nat.toDigitsCore]
    have hcons : '-' ∉ Nat.digitChar (n % b) :: acc := by
      intro hx
      rcases List.mem_cons.mp hx with hx' | hx'
      · exact digitChar_ne_dash (n % b) hx'.symm
      · exact h hx'
    split
    · exact hcons
    · exact ih (n / b) (Nat.digitChar (n % b) :: acc) hcons

theorem repr_no_dash (n : Nat) : '-' ∉ (Nat.repr n).data := by
  have : '-' ∉ Nat.toDigits 10 n := by
    rw [Nat.toDigits]
    exact toDigitsCore_no_dash 10 (n + 1) n [] (by simp)
  simpa [Nat.repr, List.asString] using this

theorem goSplit_casTicketFull (now : Nat) (u g : String)
    (hu : '-' ∉ u.data) (hg : '-' ∉ g.data) :
    goSplit (casTicketBody now u ++ "-" ++ g) '-' = ["ST", Nat.repr now, u, g] := by
  have hdata : (casTicketBody now u ++ "-" ++ g).data =
      ['S', 'T'] ++ '-' :: ((Nat.repr now).data ++ '-' :: (u.data ++ '-' :: g.data)) := by
    simp [casTicketBody, string_data_append]
  rw [goSplit, hdata,
    splitOnChar_append_sep _ (by decide),
    splitOnChar_append_sep _ (repr_no_dash now),
    splitOnChar_append_sep _ hu,
    splitOnChar_no_sep hg]
  simp [string_mk_data]

theorem splitAtFirst_eq_none {sep : Char} {l : List Char} (h : sep ∉ l) :
    splitAtFirst sep l = none := by
  induction l with
  | nil => rfl
  | cons c cs ih =>
    have hcs : sep ∉ cs := fun hx => h (List.mem_cons_of_mem c hx)
    have hc : ¬c = sep := fun hx => h (hx ▸ List.mem_cons_self c cs)
    rw [splitAtFirst, if_neg hc, ih hcs]
    rfl

/-! ## Claim C1 -/

/-- C1: for every ticket kind a lookup succeeds iff a row with that value
exists, the current time is before `expires_at` and (for the single-use OAuth
and CAS shapes) `consumed_at` is NULL; a successful single-use lookup stamps
`consumed_at = now`, so — the ticket value being unique in its table — every
second and later lookup of the same value fails, at any instant, while the
Nginx lookup consumes nothing (it returns no modified store at all) and its
success at each instant is exactly liveness at that instant, so it may succeed
repeatedly until expiry. -/
theorem ticket_lookup_spec :
    (∀ code now rows, (getAuthorizeCode code now rows).isSome = true ↔
      ∃ r ∈ rows, r.code = code ∧ now < r.expiresAt ∧ r.consumedAt = none)
  ∧ (∀ tk now rows, (getAuthorizeTicket tk now rows).isSome = true ↔
      ∃ r ∈ rows, r.ticket = tk ∧ now < r.expiresAt ∧ r.consumedAt = none)
  ∧ (∀ tok now rows, (getAuthorizeToken tok now rows).isSome = true ↔
      ∃ r ∈ rows, r.token = tok ∧ now < r.expiresAt)
  ∧ (∀ code now rows t rows', getAuthorizeCode code now rows = some (t, rows') →
      { t with consumedAt := some now } ∈ rows')
  ∧ (∀ tk now rows t rows', getAuthorizeTicket tk now rows = some (t, rows') →
      { t with consumedAt := some now } ∈ rows')
  ∧ (∀ code now rows t rows',
      rows.countP (fun r => r.code == code) ≤ 1 →
      getAuthorizeCode code now rows = some (t, rows') →
      ∀ now', getAuthorizeCode code now' rows' = none)
  ∧ (∀ tk now rows t rows',
      rows.countP (fun r => r.ticket == tk) ≤ 1 →
      getAuthorizeTicket tk now rows = some (t, rows') →
      ∀ now', getAuthorizeTicket tk now' rows' = none) := by
  refine ⟨?_, ?_, ?_, ?_, ?_, ?_, ?_⟩
  · intro code now rows
    rw [getAuthorizeCode, consumeFirst_isSome]
    simp [Option.isNone_iff_eq_none, and_assoc]
  · intro tk now rows
    rw [getAuthorizeTicket, consumeFirst_isSome]
    simp [Option.isNone_iff_eq_none, and_assoc]
  · intro tok now rows
    rw [getAuthorizeToken, List.find?_isSome]
    simp
  · intro code now rows t rows' h
    unfold getAuthorizeCode at h
    obtain ⟨l₁, l₂, _, rfl, _, _⟩ := consumeFirst_eq_some h
    exact List.mem_append.mpr (Or.inr (List.mem_cons_self _ _))
  · intro tk now rows t rows' h
    unfold getAuthorizeTicket at h
    obtain ⟨l₁, l₂, _, rfl, _, _⟩ := consumeFirst_eq_some h
    exact List.mem_append.mpr (Or.inr (List.mem_cons_self _ _))
  · intro code now rows t rows' huniq h now'
    unfold getAuthorizeCode at h ⊢
    refine consumeFirst_after_consume (fun r => r.code == code) h huniq ?_ ?_ ?_
    · intro r hr
      simp only [Bool.and_eq_true] at hr
      exact hr.1.1
    · intro r hr
      simp only [Bool.and_eq_true] at hr
      exact hr.1.1
    · simp
  · intro tk now rows t rows' huniq h now'
    unfold getAuthorizeTicket at h ⊢
    refine consumeFirst_after_consume (fun r => r.ticket == tk) h huniq ?_ ?_ ?_
    · intro r hr
      simp only [Bool.and_eq_true] at hr
      exact hr.1.1
    · intro r hr
      simp only [Bool.and_eq_true] at hr
      exact hr.1.1
    · simp

/-- Witness for C1: a consumed OAuth code row never satisfies a second
lookup, at the concrete store holding the single stamped row. -/
theorem ticket_lookup_spec_witness :
    getAuthorizeCode "c0" 9
      [{ code := "c0", redirectURI := "u", userId := 7, expiresAt := 10,
         consumedAt := some 3, nonce := "n" }] = none :=
  ticket_lookup_spec.2.2.2.2.2.1 "c0" 3
    [{ code := "c0", redirectURI := "u", userId := 7, expiresAt := 10,
       consumedAt := none, nonce := "n" }]
    { code := "c0", redirectURI := "u", userId := 7, expiresAt := 10,
      consumedAt := none, nonce := "n" }
    [{ code := "c0", redirectURI := "u", userId := 7, expiresAt := 10,
       consumedAt := some 3, nonce := "n" }]
    (by decide) (by decide) 9

/-! ## Claim C4 -/

/-- C4 (refuting evidence): GetAndConsume is not atomic with respect to the
`consumed_at` stamp.  The dao code runs a SELECT of the live row and then a
separate unconditional UPDATE; under the interleaving in which both callers
run their SELECT before either UPDATE (schedule a-read, b-read, a-write,
b-write) both callers of the same live ticket value observe success,
contradicting the at-most-one-success contract. -/
theorem getandconsume_race_two_successes :
    (runRace 0 10 [true, false, true, false] ⟨none, .start, .start⟩).a = .succeeded
  ∧ (runRace 0 10 [true, false, true, false] ⟨none, .start, .start⟩).b = .succeeded := by
  decide

/-! ## Claim C9 -/

/-- C9: the Logout handler splits the Authorization header on the first space
and unconditionally indexes the second part, so every request whose
Authorization header contains no space — including an absent header, read as
the empty string — makes the handler panic with an index-out-of-range instead
of returning an error response. -/
theorem logout_no_space_panics :
    (∀ h : String, ' ' ∉ h.data → logout h = .panicIndexOutOfRange)
  ∧ logout "" = .panicIndexOutOfRange := by
  constructor
  · intro h hs
    rw [logout, goSplitN2, splitAtFirst_eq_none hs]
    rfl
  · rfl

/-- Witness for C9: a bearer header typed without the space panics. -/
theorem logout_no_space_panics_witness :
    logout "Bearer.abc.def" = .panicIndexOutOfRange :=
  logout_no_space_panics.1 "Bearer.abc.def" (by decide)

/-! ## Claim C2 -/

/-- C2: the dispatcher picks exactly one engine in first-match order OAuth,
CAS, SAML, Nginx — whenever `response_type`, `client_id` and `redirect_uri`
are all non-empty the OAuth engine handles the request regardless of the
`service`, `SAMLRequest` or Nginx callback fields, and a bag matching none of
the four triggers yields the empty result with no error. -/
theorem login_dispatch_first_match :
    (∀ env q user st,
      q.responseType ≠ "" → q.clientId ≠ "" → q.redirectURI ≠ "" →
      login env q user st = loginOAuthBranch env q user st)
  ∧ (∀ env q user st,
      (q.responseType != "" && q.clientId != "" && q.redirectURI != "") = false →
      q.service = "" → q.samlRequest = "" → q.nginxRedirectURI = "" →
      login env q user st = (⟨"", "", none⟩, st)) := by
  constructor
  · intro env q user st h1 h2 h3
    have hb : (q.responseType != "" && q.clientId != "" && q.redirectURI != "") = true := by
      simp [bne_iff_ne, h1, h2, h3]
    rw [login, if_pos hb]
  · intro env q user st h1 h2 h3 h4
    rw [login, if_neg (by simp [h1]), if_neg (by simp [h2]),
      if_neg (by simp [h3]), if_neg (by simp [h4])]

/-- Witness for C2: with every trigger present at once the OAuth branch is
taken. -/
theorem login_dispatch_first_match_witness :
    login env0 qAllTriggers authUser0 emptyStore =
      loginOAuthBranch env0 qAllTriggers authUser0 emptyStore :=
  login_dispatch_first_match.1 env0 qAllTriggers authUser0 emptyStore
    (by decide) (by decide) (by decide)

/-! ## Claim C5 -/

/-- C5: for any site with `all_open = false` and a subject outside its
membership list, each engine's authorize (OAuth, CAS, Nginx, SAML) returns the
access-denied error with the site name populated and leaves the ticket store
unchanged — no row is inserted. -/
theorem access_denied_no_ticket :
    (∀ env (d : OAuthAuthorize) userId st site,
      getOAuthSite env.sites d.clientId = some site →
      site.allOpen = false → isUserInSite userId site = false →
      getOAuthAuthorize env d userId st = (⟨"", site.name, some "您无权访问该应用"⟩, st))
  ∧ (∀ env (d : CASAuthorize) userId username st site,
      getCASSite env.sites d.service = some site →
      site.allOpen = false → isUserInSite userId site = false →
      getCASAuthorize env d userId username st =
        (⟨"", site.name, some "您无权访问该应用"⟩, st))
  ∧ (∀ env (d : NginxAuthorize) userId st site,
      getNginxSite env.sites d.callbackURL = some site →
      site.allOpen = false → isUserInSite userId site = false →
      getNginxAuthorize env d userId st = (⟨"", site.name, some "您无权访问该应用"⟩, st))
  ∧ (∀ env (req : SAMLRequestParams) userId st rd site,
      env.parseSAMLRequest req.samlRequest = .ok rd →
      getSamlSite env.sites rd.issuerValue = some site →
      site.allOpen = false → isUserInSite userId site = false →
      getSPAuthorize env req userId st = (⟨"", site.name, some "您无权访问该应用"⟩, st)) := by
  refine ⟨?_, ?_, ?_, ?_⟩
  · intro env d userId st site hsite hopen hmem
    simp [getOAuthAuthorize, hsite, hopen, hmem]
  · intro env d userId username st site hsite hopen hmem
    simp [getCASAuthorize, hsite, hopen, hmem]
  · intro env d userId st site hsite hopen hmem
    simp [getNginxAuthorize, hsite, hopen, hmem]
  · intro env req userId st rd site hparse hsite hopen hmem
    simp [getSPAuthorize, hparse, hsite, hopen, hmem]

/-- Witness for C5: the closed site denies user 7 on the OAuth engine and the
store stays empty. -/
theorem access_denied_no_ticket_witness :
    getOAuthAuthorize envClosed ⟨"code", "demo", "https://app/cb", "x", "openid", "n1"⟩
      7 emptyStore = (⟨"", siteClosed.name, some "您无权访问该应用"⟩, emptyStore) :=
  access_denied_no_ticket.1 envClosed
    ⟨"code", "demo", "https://app/cb", "x", "openid", "n1"⟩ 7 emptyStore siteClosed
    (by decide) (by decide) (by decide)

/-! ## Claim C6 -/

/-- C6: on a valid token exchange — the site exists, the client secret
matches, the presented code decrypts and resolves to a live unconsumed ticket,
the subject exists and the JWT issuer succeeds — the token endpoint returns
`id_token` and `access_token` as the identical JWT string, `token_type`
"bearer", `expires_in` 3600 and scope "openid". -/
theorem token_success_shape :
    ∀ env param st site codeStr jwt t oauth' user,
      getOAuthSite env.sites param.clientId = some site →
      site.clientSecret = param.clientSecret →
      env.decrypt param.code = .ok codeStr →
      getAuthorizeCode codeStr env.now st.oauth = some (t, oauth') →
      getUserInfo env.users t.userId = some user →
      env.generateOAuthToken user.id user.name user.username site.clientId
        "readwrite" t.nonce = .ok jwt →
      (getToken env param st).1 =
        .ok ⟨jwt, jwt, "bearer", 3600, "", "openid"⟩ := by
  intro env param st site codeStr jwt t oauth' user hsite hsec hdec hcode huser hjwt
  simp [getToken, hsite, hsec, hdec, hcode, huser, hjwt]

/-- Witness for C6: the concrete exchange under `env0` returns the doubled
JWT with the fixed metadata fields. -/
theorem token_success_shape_witness :
    (getToken env0 paramC6 storeOAuth).1 =
      .ok ⟨"jwt0", "jwt0", "bearer", 3600, "", "openid"⟩ :=
  token_success_shape env0 paramC6 storeOAuth site0 "c0" "jwt0" rowC6
    [{ rowC6 with consumedAt := some 100 }] user0
    (by decide) (by decide) rfl (by decide) (by decide) rfl

/-! ## Claim C10 -/

/-- C10: `GetToken` discards the decryption error of the presented code and
never checks the user-lookup error: when the code resolves to a live ticket
whose owner is missing from the subject store, the nil user result is
dereferenced and the call panics instead of returning an error; and when
decryption fails the flow silently continues with the zero-value empty code,
surfacing only "code string is invalid". -/
theorem token_nil_user_panics :
    (∀ env param st site codeStr t oauth',
      getOAuthSite env.sites param.clientId = some site →
      site.clientSecret = param.clientSecret →
      env.decrypt param.code = .ok codeStr →
      getAuthorizeCode codeStr env.now st.oauth = some (t, oauth') →
      getUserInfo env.users t.userId = none →
      (getToken env param st).1 = .panicNilDeref)
  ∧ (∀ env param st site e,
      getOAuthSite env.sites param.clientId = some site →
      site.clientSecret = param.clientSecret →
      env.decrypt param.code = .error e →
      getAuthorizeCode "" env.now st.oauth = none →
      (getToken env param st).1 = .err "code string is invalid") := by
  constructor
  · intro env param st site codeStr t oauth' hsite hsec hdec hcode huser
    simp [getToken, hsite, hsec, hdec, hcode, huser]
  · intro env param st site e hsite hsec hdec hcode
    simp [getToken, hsite, hsec, hdec, hcode]

/-- Witness for C10: under the user-less environment the valid exchange for
`rowC6` panics on the nil user. -/
theorem token_nil_user_panics_witness :
    (getToken envNoUsers paramC6 storeOAuth).1 = .panicNilDeref :=
  token_nil_user_panics.1 envNoUsers paramC6 storeOAuth site0 "c0" rowC6
    [{ rowC6 with consumedAt := some 100 }]
    (by decide) (by decide) rfl (by decide) (by decide)

/-! ## Claim C7 -/

/-- C7 (amended): every failure of ServiceValidate returns exactly
"service string is invalid" (site lookup) or "ticket string is invalid"
(missing, expired, consumed, malformed or wrongly-signed ticket) — except
that when the ticket passes every check and the subsequent user lookup fails,
the subject store's own error is propagated verbatim. -/
theorem servicevalidate_error_strings :
    ∀ env service ticket st e,
      (serviceValidate env service ticket st).1 = .error e →
      e = "service string is invalid" ∨ e = "ticket string is invalid" ∨
        e = "record not found" := by
  intro env service ticket st e h
  unfold serviceValidate at h
  dsimp only at h
  repeat' split at h
  all_goals simp_all

/-- Witness for C7: the error produced by the malformed ticket `x` against a
registered service is one of the enumerated strings. -/
theorem servicevalidate_error_strings_witness :
    ("ticket string is invalid" : String) = "service string is invalid" ∨
      ("ticket string is invalid" : String) = "ticket string is invalid" ∨
      ("ticket string is invalid" : String) = "record not found" :=
  servicevalidate_error_strings env0 "https://app/cas" "x" emptyStore
    "ticket string is invalid" rfl

/-- Counterexample for C7 as frozen: a valid, correctly signed ticket whose
owning user id misses the subject store makes ServiceValidate fail with the
store's "record not found", which is neither of the two documented strings. -/
theorem servicevalidate_leaks_store_error :
    (serviceValidate envNoUsers "https://app/cas" "ST-5-bob-cafe" storeDangling).1 =
        .error "record not found"
  ∧ ("record not found" : String) ≠ "service string is invalid"
  ∧ ("record not found" : String) ≠ "ticket string is invalid" :=
  ⟨rfl, by decide, by decide⟩

/-! ## Claim C8 -/

/-- C8 (amended): for every SAML AuthnRequest whose SP entity id starts with
`https://signin.aliyun.com`, provided the site's address does not contain
`awsapps` (the AWS override runs after the Aliyun one and would replace the
NameID with the email and switch the format), the NameID of the issued
response is `<username>@<site.domain_id>` and the NameIdFormat stays
Unspecified. -/
theorem saml_aliyun_nameid :
    ∀ env rd site u,
      goStartsWith rd.issuerValue "https://signin.aliyun.com" = true →
      goContains site.address "awsapps" = false →
      (samlIdPContext env rd site u).nameIdentifier = u.username ++ "@" ++ site.domainId
      ∧ (samlIdPContext env rd site u).nameIdFormat =
          "urn:oasis:names:tc:SAML:1.1:nameid-format:unspecified" := by
  intro env rd site u hy hn
  simp [samlIdPContext, hy, hn]

/-- Witness for C8: user carol with site domain id 123 yields NameID
`carol@123` in the Unspecified format. -/
theorem saml_aliyun_nameid_witness :
    (samlIdPContext env0 rdAliyun siteAliyun carol).nameIdentifier = "carol@123"
    ∧ (samlIdPContext env0 rdAliyun siteAliyun carol).nameIdFormat =
        "urn:oasis:names:tc:SAML:1.1:nameid-format:unspecified" :=
  ⟨(saml_aliyun_nameid env0 rdAliyun siteAliyun carol (by decide) (by decide)).1.trans
      (by decide),
   (saml_aliyun_nameid env0 rdAliyun siteAliyun carol (by decide) (by decide)).2⟩

/-- Counterexample for C8 as frozen: an Aliyun-entity site whose address
contains `awsapps` gets the AWS override applied after the Aliyun one, so the
NameID becomes the email and the format switches to EmailAddress. -/
theorem saml_aliyun_nameid_cex :
    goStartsWith rdAliyun.issuerValue "https://signin.aliyun.com" = true
  ∧ (samlIdPContext env0 rdAliyun siteAws carol).nameIdentifier ≠
      carol.username ++ "@" ++ siteAws.domainId
  ∧ (samlIdPContext env0 rdAliyun siteAws carol).nameIdFormat ≠
      "urn:oasis:names:tc:SAML:1.1:nameid-format:unspecified" := by
  decide

/-! ## Claim C3 -/

/-- C3 (amended): for every username `u` that contains no `-` character and
every instant, the CAS ticket issued for `u` (body `ST-<unix>-<u>`, full value
`body-hex(HMAC_SHA256(secret, body))`) validates successfully when presented
within 10 seconds — given the service resolves, access is granted, the subject
exists, the hex signature contains no `-`, and the ticket table held no prior
row — and presenting the same signature over any other body fails with the
invalid-ticket error.  For a username containing `-` the claim fails as
frozen: the ticket splits into more than four parts and even the untampered
round trip is rejected (see the counterexample). -/
theorem cas_ticket_roundtrip :
    ∀ (env : Env) (service u : String) (userId : Nat) (site : Site)
      (user : User) (st : TicketStore) (now' : Nat),
      getCASSite env.sites service = some site →
      (!site.allOpen && !isUserInSite userId site) = false →
      '-' ∉ u.data →
      '-' ∉ (env.hmacHex (casTicketBody env.now u)).data →
      st.cas = [] →
      getUserInfo env.users userId = some user →
      now' < env.now + 10 →
      ((getCASAuthorize env ⟨service⟩ userId u st).2.cas =
          [casIssuedRow env site userId u])
      ∧ ((serviceValidate { env with now := now' } service
            (casTicketFull env.hmacHex env.now u)
            (getCASAuthorize env ⟨service⟩ userId u st).2).1 =
          .ok ⟨user.username, user.id, user.name, user.username, user.email,
               user.phoneNumber⟩)
      ∧ (∀ body' : String, body' ≠ casTicketBody env.now u →
          (serviceValidate { env with now := now' } service
            (body' ++ "-" ++ env.hmacHex (casTicketBody env.now u))
            (getCASAuthorize env ⟨service⟩ userId u st).2).1 =
          .error "ticket string is invalid") := by
  intro env service u userId site user st now' hsite hacc hu hg hcas huser hnow'
  have hissue : getCASAuthorize env ⟨service⟩ userId u st =
      (⟨site.callbackUrl ++ goSeparator site.callbackUrl ++ "ticket="
          ++ casTicketFull env.hmacHex env.now u, site.name, none⟩,
        { st with cas := st.cas ++ [casIssuedRow env site userId u] }) := by
    simp [getCASAuthorize, hsite, hacc]
  have hstore : (getCASAuthorize env ⟨service⟩ userId u st).2 =
      ⟨st.oauth, [casIssuedRow env site userId u], st.nginx⟩ := by
    rw [hissue]
    simp [hcas]
  have hsplit : goSplit (casTicketFull env.hmacHex env.now u) '-' =
      ["ST", Nat.repr env.now, u, env.hmacHex (casTicketBody env.now u)] :=
    goSplit_casTicketFull env.now u (env.hmacHex (casTicketBody env.now u)) hu hg
  have hbody : "ST" ++ "-" ++ Nat.repr env.now ++ "-" ++ u = casTicketBody env.now u := by
    apply string_eq_of_data
    simp [casTicketBody, string_data_append]
  have hlookup : getAuthorizeTicket (casTicketFull env.hmacHex env.now u) now'
      [casIssuedRow env site userId u] =
      some (casIssuedRow env site userId u,
        [{ casIssuedRow env site userId u with consumedAt := some now' }]) := by
    unfold getAuthorizeTicket consumeFirst
    rw [if_pos]
    simp [casIssuedRow, hnow']
  refine ⟨?_, ?_, ?_⟩
  · rw [hstore]
  · rw [hstore]
    simp only [serviceValidate, hsite, hlookup]
    simp [hsplit, List.getD, hbody, casIssuedRow, huser]
    simp [casTicketBody]
  · intro body' hb
    have hne : (casIssuedRow env site userId u).ticket ≠
        body' ++ "-" ++ env.hmacHex (casTicketBody env.now u) := by
      intro heq
      apply hb
      have hd := congrArg String.data heq
      have hdash : ("-" : String).data = ['-'] := rfl
      simp only [casIssuedRow, casTicketFull, string_data_append, hdash,
        List.append_assoc, List.singleton_append] at hd
      exact (string_eq_of_data (List.append_cancel_right hd)).symm
    have hlookup' : getAuthorizeTicket
        (body' ++ "-" ++ env.hmacHex (casTicketBody env.now u)) now'
        [casIssuedRow env site userId u] = none := by
      unfold getAuthorizeTicket
      apply consumeFirst_eq_none
      intro r hr
      have hrr : r = casIssuedRow env site userId u := by simpa using hr
      subst hrr
      simp [beq_eq_false_iff_ne.mpr hne]
    rw [hstore]
    simp only [serviceValidate, hsite, hlookup']

/-- Witness for C3: the concrete round trip for username `alice` issued at 100
and validated at 105 under `env0`. -/
theorem cas_ticket_roundtrip_witness :
    ((getCASAuthorize env0 ⟨"https://app/cas"⟩ 7 "alice" emptyStore).2.cas =
        [casIssuedRow env0 site0 7 "alice"])
    ∧ ((serviceValidate { env0 with now := 105 } "https://app/cas"
          (casTicketFull env0.hmacHex 100 "alice")
          (getCASAuthorize env0 ⟨"https://app/cas"⟩ 7 "alice" emptyStore).2).1 =
        .ok ⟨user0.username, user0.id, user0.name, user0.username, user0.email,
             user0.phoneNumber⟩) :=
  ⟨(cas_ticket_roundtrip env0 "https://app/cas" "alice" 7 site0 user0 emptyStore 105
      rfl (by decide) (by decide) (by decide) rfl (by decide) (by decide)).1,
   (cas_ticket_roundtrip env0 "https://app/cas" "alice" 7 site0 user0 emptyStore 105
      rfl (by decide) (by decide) (by decide) rfl (by decide) (by decide)).2.1⟩

/-- Counterexample for C3 as frozen: for the username `a-b` — which contains
a `-` — the untampered ticket issued at 100 is rejected at 105, well inside
the 10-second window, because the ticket splits into five parts. -/
theorem cas_ticket_roundtrip_cex :
    ((getCASAuthorize env0 ⟨"https://app/cas"⟩ 7 "a-b" emptyStore).1.err = none)
  ∧ ((serviceValidate { env0 with now := 105 } "https://app/cas"
        (casTicketFull env0.hmacHex 100 "a-b")
        (getCASAuthorize env0 ⟨"https://app/cas"⟩ 7 "a-b" emptyStore).2).1 =
      .error "ticket string is invalid") :=
  ⟨rfl, rfl⟩

end IDSphere
